import Mathlib

/-!
Shallow embedding of the vanilla-redux example (src/index.js): the action
constructors, the initial state and the reducer are translated directly from
the source; the state container returned by the redux library's createStore
is modelled from the specification, since the library itself is not part of
this repository.
-/

namespace Redux

/-- A JavaScript number as it occurs in this program: an integer, or NaN
(which arises when arithmetic meets an undefined operand). -/
inductive JSNum where
  | nan : JSNum
  | int : Int → JSNum
  deriving DecidableEq

/-- JavaScript addition of a number and a possibly-absent payload, as in
`state.counter + action.difference`: an absent operand behaves as undefined
and yields NaN; NaN propagates. -/
def JSNum.addOpt : JSNum → Option Int → JSNum
  | _, none => JSNum.nan
  | JSNum.nan, _ => JSNum.nan
  | JSNum.int a, some b => JSNum.int (a + b)

/-- JavaScript subtraction of one, as in `state.counter - 1`; NaN
propagates. -/
def JSNum.subOne : JSNum → JSNum
  | JSNum.nan => JSNum.nan
  | JSNum.int a => JSNum.int (a - 1)

/-- The application state shape of src/index.js: a record with a boolean
`toggle` and a numeric `counter`. -/
structure State where
  toggle : Bool
  counter : JSNum
  deriving DecidableEq

/-- Action type constant of src/index.js. -/
def TOGGLE_SWITCH : String := "TOGGLE_SWITCH"

/-- Action type constant of src/index.js. -/
def INCREASE : String := "INCREASE"

/-- Action type constant of src/index.js. -/
def DECREASE : String := "DECREASE"

/-- An action object of src/index.js: a `type` discriminator and an optional
`difference` payload; `none` models an absent (undefined) property. -/
structure Action where
  type : String
  difference : Option Int
  deriving DecidableEq

/-- Action constructor toggleSwitch of src/index.js: produces an object with
only a `type` property. -/
def toggleSwitch : Action :=
  { type := TOGGLE_SWITCH, difference := none }

/-- Action constructor increase of src/index.js: carries its argument as the
`difference` payload. -/
def increase (difference : Int) : Action :=
  { type := INCREASE, difference := some difference }

/-- Action constructor decrease of src/index.js: produces an object with
only a `type` property. -/
def decrease : Action :=
  { type := DECREASE, difference := none }

/-- initialState of src/index.js. -/
def initialState : State :=
  { toggle := false, counter := JSNum.int 0 }

/-- The reducer function of src/index.js. The prior state is passed as an
`Option State`: `none` models a JavaScript undefined prior state, which the
parameter default `state = initialState` replaces with `initialState`; the
switch on `action.type` is the chain of equality tests below. -/
def reducer (state : Option State) (action : Action) : State :=
  let s := state.getD initialState
  if action.type = TOGGLE_SWITCH then
    { s with toggle := !s.toggle }
  else if action.type = INCREASE then
    { s with counter := s.counter.addOpt action.difference }
  else if action.type = DECREASE then
    { s with counter := s.counter.subOne }
  else
    s

/-- Modelled from the spec: the state container produced by the redux
library's createStore, which is not part of this repository's sources. It
owns the current state, the ordered list of all actions ever dispatched, an
ordered registry of listener registrations, and a fresh-identifier counter
so that each unsubscribe handle removes exactly its own registration. -/
structure Container (L : Type) where
  currentState : State
  dispatched : List Action
  subs : List (Nat × L)
  nextId : Nat

/-- Modelled from the spec: the initialization action dispatched at
construction; its discriminator matches no application action. -/
def initAction : Action :=
  { type := "@@redux/INIT", difference := none }

/-- Modelled from the spec: construction without an explicit initial state:
the current state is what the reducer returns for an absent prior state and
the initialization action. -/
def Container.create (L : Type) : Container L :=
  { currentState := reducer none initAction
    dispatched := []
    subs := []
    nextId := 0 }

/-- Modelled from the spec: read the current state snapshot. -/
def Container.getState {L : Type} (c : Container L) : State :=
  c.currentState

/-- Modelled from the spec: dispatch computes the next state with the
reducer, records the action, and notifies every currently subscribed
registration; the returned list is the notification pass, each registration
notified exactly once, in subscription order. -/
def Container.dispatch {L : Type} (c : Container L) (a : Action) :
    Container L × List (Nat × L) :=
  ({ c with
      currentState := reducer (some c.currentState) a,
      dispatched := c.dispatched ++ [a] },
    c.subs)

/-- Modelled from the spec: subscribe appends a fresh registration at the
end of the registry and returns its identifier, which serves as the
unsubscribe handle for exactly this registration. -/
def Container.subscribe {L : Type} (c : Container L) (l : L) :
    Container L × Nat :=
  ({ c with subs := c.subs ++ [(c.nextId, l)], nextId := c.nextId + 1 },
    c.nextId)

/-- Modelled from the spec: invoking an unsubscribe handle removes the
registration with that identifier; on a container that no longer holds the
identifier this removes nothing. -/
def Container.unsubscribe {L : Type} (c : Container L) (id : Nat) :
    Container L :=
  { c with subs := c.subs.filter (fun p => p.1 ≠ id) }

/-- An operation on the container, for stating properties over arbitrary
interleavings of dispatches, subscriptions and unsubscriptions. -/
inductive Op (L : Type) where
  | act (a : Action)
  | sub (l : L)
  | unsub (id : Nat)

/-- Apply one operation to a container. -/
def Container.step {L : Type} (c : Container L) : Op L → Container L
  | Op.act a => (c.dispatch a).1
  | Op.sub l => (c.subscribe l).1
  | Op.unsub id => c.unsubscribe id

/-- Apply a list of operations to a container, in order. -/
def Container.run {L : Type} (c : Container L) : List (Op L) → Container L
  | [] => c
  | o :: os => (c.step o).run os

/-- Dispatch a list of actions to a container, in order. -/
def Container.dispatchAll {L : Type} (c : Container L) (as : List Action) :
    Container L :=
  as.foldl (fun c a => (c.dispatch a).1) c

/-- Every registration identifier in the registry is below the fresh-id
counter. -/
def Container.wf {L : Type} (c : Container L) : Prop :=
  ∀ p ∈ c.subs, p.1 < c.nextId

/-- The identifier is retired: strictly below the fresh-id counter and held
by no current registration. -/
def Container.idFree {L : Type} (c : Container L) (id : Nat) : Prop :=
  id < c.nextId ∧ ∀ p ∈ c.subs, p.1 ≠ id

theorem create_wf (L : Type) : (Container.create L).wf := by
  intro p hp
  simp [Container.create] at hp

theorem dispatchAll_state (L : Type) (as : List Action) (c : Container L) :
    (c.dispatchAll as).currentState
      = as.foldl (fun s a => reducer (some s) a) c.currentState := by
  induction as generalizing c with
  | nil => rfl
  | cons a as ih =>
      have h := ih ((c.dispatch a).1)
      simpa [Container.dispatchAll, Container.dispatch] using h

theorem run_state_fold (L : Type) (ops : List (Op L)) (c : Container L)
    (h : c.currentState
        = c.dispatched.foldl (fun s a => reducer (some s) a) initialState) :
    (c.run ops).currentState
      = (c.run ops).dispatched.foldl
          (fun s a => reducer (some s) a) initialState := by
  induction ops generalizing c with
  | nil => exact h
  | cons o os ih =>
      refine ih _ ?_
      cases o with
      | act a => simp [Container.step, Container.dispatch, List.foldl_append, h]
      | sub l => exact h
      | unsub id => exact h

theorem idFree_step (L : Type) (c : Container L) (id : Nat) (o : Op L)
    (h : c.idFree id) : (c.step o).idFree id := by
  obtain ⟨hlt, hmem⟩ := h
  cases o with
  | act a => exact ⟨hlt, hmem⟩
  | sub l =>
      refine ⟨Nat.lt_succ_of_lt hlt, fun p hp => ?_⟩
      rcases List.mem_append.mp hp with h1 | h1
      · exact hmem p h1
      · rw [List.mem_singleton] at h1
        subst h1
        exact Ne.symm (Nat.ne_of_lt hlt)
  | unsub j =>
      exact ⟨hlt, fun p hp => hmem p (List.mem_of_mem_filter hp)⟩

theorem idFree_run (L : Type) (ops : List (Op L)) (c : Container L)
    (id : Nat) (h : c.idFree id) : (c.run ops).idFree id := by
  induction ops generalizing c with
  | nil => exact h
  | cons o os ih => exact ih _ (idFree_step L c id o h)

theorem unsubscribe_fresh (L : Type) (c : Container L) (l : L) :
    ((c.subscribe l).1.unsubscribe (c.subscribe l).2).idFree
      (c.subscribe l).2 := by
  refine ⟨Nat.lt_succ_self _, fun p hp => ?_⟩
  have h := List.of_mem_filter hp
  simpa using h

theorem unsubscribe_idem_of_idFree (L : Type) (c : Container L) (id : Nat)
    (h : ∀ p ∈ c.subs, p.1 ≠ id) : c.unsubscribe id = c := by
  have hfix : c.subs.filter (fun p => decide (p.1 ≠ id)) = c.subs :=
    List.filter_eq_self.mpr (fun p hp => decide_eq_true (h p hp))
  show { c with subs := c.subs.filter (fun p => decide (p.1 ≠ id)) } = c
  rw [hfix]

/-- Claim C1: getState after dispatching a sequence of actions in order
equals the left-fold of the reducer over that sequence starting from the
initial state, and at any observable point (after any interleaving of
operations on a freshly created container) the current state equals this
fold over all actions ever dispatched. -/
theorem getState_is_fold_of_dispatched (L : Type) (as : List Action)
    (ops : List (Op L)) :
    ((Container.create L).dispatchAll as).getState
        = as.foldl (fun s a => reducer (some s) a) initialState
    ∧ ((Container.create L).run ops).getState
        = ((Container.create L).run ops).dispatched.foldl
            (fun s a => reducer (some s) a) initialState := by
  constructor
  · have h := dispatchAll_state L as (Container.create L)
    have hcreate : (Container.create L).currentState = initialState := rfl
    rw [Container.getState, h, hcreate]
  · exact run_state_fold L ops (Container.create L) rfl

/-- Claim C2: from `toggle := false, counter := 0`, a toggle action yields
`toggle := true, counter := 0`; then increase 3 yields `counter := 3`; then
a decrease action yields `counter := 2`. -/
theorem concrete_scenario :
    reducer (some initialState) toggleSwitch
        = { toggle := true, counter := JSNum.int 0 }
    ∧ reducer (some { toggle := true, counter := JSNum.int 0 }) (increase 3)
        = { toggle := true, counter := JSNum.int 3 }
    ∧ reducer (some { toggle := true, counter := JSNum.int 3 }) decrease
        = { toggle := true, counter := JSNum.int 2 } :=
  ⟨rfl, rfl, rfl⟩

/-- Claim C3: a DECREASE action ignores any payload on the action and the
new counter is exactly the previous counter minus one, while an INCREASE
action yields the previous counter plus the difference payload of the
action (JavaScript addition: an absent payload gives NaN). -/
theorem decrease_ignores_payload (s : State) (d e : Option Int) :
    reducer (some s) { type := DECREASE, difference := d }
        = { s with counter := s.counter.subOne }
    ∧ reducer (some s) { type := DECREASE, difference := d }
        = reducer (some s) { type := DECREASE, difference := e }
    ∧ reducer (some s) { type := INCREASE, difference := d }
        = { s with counter := s.counter.addOpt d } :=
  ⟨rfl, rfl, rfl⟩

/-- Claim C4: an action whose discriminator is none of TOGGLE_SWITCH,
INCREASE and DECREASE leaves the state unchanged and equal by value to the
prior state (default branch of the switch). -/
theorem unknown_action_noop (s : State) (a : Action)
    (h1 : a.type ≠ TOGGLE_SWITCH) (h2 : a.type ≠ INCREASE)
    (h3 : a.type ≠ DECREASE) :
    reducer (some s) a = s := by
  simp [reducer, h1, h2, h3]

theorem unknown_action_noop_witness :
    (({ type := "RESET", difference := none } : Action).type ≠ TOGGLE_SWITCH
      ∧ ({ type := "RESET", difference := none } : Action).type ≠ INCREASE
      ∧ ({ type := "RESET", difference := none } : Action).type ≠ DECREASE)
    ∧ reducer (some initialState) { type := "RESET", difference := none }
        = initialState :=
  ⟨⟨by decide, by decide, by decide⟩,
    unknown_action_noop initialState { type := "RESET", difference := none }
      (by decide) (by decide) (by decide)⟩

/-- Claim C5: an absent prior state is replaced by the fixed initial value
`toggle := false, counter := 0` via the parameter default, and a container
constructed without an explicit initial state reads exactly this value
before any application action is dispatched. -/
theorem default_initial_state (L : Type) (a : Action) :
    reducer none a = reducer (some initialState) a
    ∧ (Container.create L).getState = initialState :=
  ⟨rfl, rfl⟩

/-- Claim C6: after subscribe then dispatch, the notification pass is the
registry in subscription order and contains the new registration exactly
once; after invoking the returned unsubscribe handle, no later dispatch,
under any further interleaving of operations, ever notifies that
registration again; and invoking the unsubscribe handle a second time is a
no-op leaving the container unchanged. -/
theorem subscribe_notify_unsubscribe (L : Type) (c : Container L) (l : L)
    (a b : Action) (ops : List (Op L)) (hwf : c.wf) :
    ((c.subscribe l).1.dispatch a).2 = c.subs ++ [((c.subscribe l).2, l)]
    ∧ ((c.subscribe l).1.dispatch a).2.countP
        (fun q => decide (q.1 = (c.subscribe l).2)) = 1
    ∧ (∀ q ∈ ((((c.subscribe l).1.unsubscribe (c.subscribe l).2).run
          ops).dispatch b).2,
        q.1 ≠ (c.subscribe l).2)
    ∧ ((c.subscribe l).1.unsubscribe (c.subscribe l).2).unsubscribe
          (c.subscribe l).2
        = (c.subscribe l).1.unsubscribe (c.subscribe l).2 := by
  refine ⟨rfl, ?_, ?_, ?_⟩
  · show (c.subs ++ [(c.nextId, l)]).countP
        (fun q => decide (q.1 = c.nextId)) = 1
    rw [List.countP_append]
    have h0 : c.subs.countP (fun q => decide (q.1 = c.nextId)) = 0 := by
      apply List.countP_eq_zero.mpr
      intro q hq
      simp only [decide_eq_true_eq]
      exact Nat.ne_of_lt (hwf q hq)
    simp [h0, List.countP_cons]
  · intro q hq
    have hfree := idFree_run L ops _ _ (unsubscribe_fresh L c l)
    exact hfree.2 q hq
  · exact unsubscribe_idem_of_idFree L _ _ (unsubscribe_fresh L c l).2

theorem subscribe_notify_unsubscribe_witness :
    (Container.create Unit).wf
    ∧ ((((Container.create Unit).subscribe ()).1.dispatch toggleSwitch).2
          = (Container.create Unit).subs
              ++ [(((Container.create Unit).subscribe ()).2, ())]
        ∧ (((Container.create Unit).subscribe ()).1.dispatch
              toggleSwitch).2.countP
            (fun q => decide (q.1 = ((Container.create Unit).subscribe ()).2))
            = 1
        ∧ (∀ q ∈ (((((Container.create Unit).subscribe ()).1.unsubscribe
              ((Container.create Unit).subscribe ()).2).run
                ([] : List (Op Unit))).dispatch toggleSwitch).2,
            q.1 ≠ ((Container.create Unit).subscribe ()).2)
        ∧ (((Container.create Unit).subscribe ()).1.unsubscribe
              ((Container.create Unit).subscribe ()).2).unsubscribe
              ((Container.create Unit).subscribe ()).2
            = ((Container.create Unit).subscribe ()).1.unsubscribe
                ((Container.create Unit).subscribe ()).2) :=
  ⟨create_wf Unit,
    subscribe_notify_unsubscribe Unit (Container.create Unit) () toggleSwitch
      toggleSwitch [] (create_wf Unit)⟩

/-- Claim C7: each transition changes only one field: a TOGGLE_SWITCH
action flips the toggle and leaves the counter unchanged, while INCREASE
and DECREASE actions leave the toggle unchanged; the reducer is a pure
function producing a new value and never mutates its input. -/
theorem transition_frame (s : State) (d e : Option Int) :
    (reducer (some s) toggleSwitch).counter = s.counter
    ∧ (reducer (some s) toggleSwitch).toggle = !s.toggle
    ∧ (reducer (some s) { type := INCREASE, difference := d }).toggle
        = s.toggle
    ∧ (reducer (some s) { type := DECREASE, difference := e }).toggle
        = s.toggle :=
  ⟨rfl, rfl, rfl, rfl⟩

/-- Claim C8: the reducer is deterministic and reads nothing outside its
two parameters: equal (state, action) argument pairs always yield equal
results (in this pure embedding no ambient value can be read at all). -/
theorem reducer_deterministic (s t : Option State) (a b : Action)
    (hs : s = t) (ha : a = b) :
    reducer s a = reducer t b := by
  rw [hs, ha]

theorem reducer_deterministic_witness :
    ((some initialState : Option State) = some initialState
      ∧ toggleSwitch = toggleSwitch)
    ∧ reducer (some initialState) toggleSwitch
        = reducer (some initialState) toggleSwitch :=
  ⟨⟨rfl, rfl⟩,
    reducer_deterministic (some initialState) (some initialState)
      toggleSwitch toggleSwitch rfl rfl⟩

/-- Claim C9: the reducer is total: for every prior state (present or
absent) and every action object it returns a defined state, so a dispatch
always commits the reducer's result and the container's transition-error
branch is unreachable for this reducer. -/
theorem reducer_total (L : Type) (s : Option State) (a : Action)
    (c : Container L) :
    (∃ t : State, reducer s a = t)
    ∧ (c.dispatch a).1.getState = reducer (some c.getState) a :=
  ⟨⟨reducer s a, rfl⟩, rfl⟩

/-- Claim C10: applying the reducer twice with the action produced by
toggleSwitch is an involution: the second toggle restores the original
state exactly. -/
theorem toggle_involution (s : State) :
    reducer (some (reducer (some s) toggleSwitch)) toggleSwitch = s := by
  cases s with
  | mk t c => simp [reducer, toggleSwitch, TOGGLE_SWITCH]

end Redux
